import Mathlib

/-!
Verification of the speed-networking matching/session core.

This file gives a shallow embedding, in Lean 4, of the matching and session
logic of the repository:

* `src/src/utils/aiMatchingService.ts` — the compatibility scorer
  (`AIMatchingService.calculateBasicCompatibility`,
  `AIMatchingService.calculateAdvancedCompatibility`);
* the speed-networking room component (`findMatch`, `handleSkip`,
  `handleTimeUp`, the countdown timer effect, `handleExtendTime`,
  `leaveRoom` / `cleanup`).

Scores are modelled as `Int` (the JavaScript values are numbers built from
integer increments, so the clamp to the interval [0,100] is a meaningful
statement over `Int`).  Calls to the external AI service and the
`Math.random()` draw in the inline fallback of `findMatch` are modelled as
explicit oracle inputs, so that every function is a pure function of its
inputs, exactly as observed along one execution.
-/

/-- Structure `MatchingProfile` from `aiMatchingService.ts` (lines 4–16). -/
structure MatchingProfile where
  id : String
  firstName : String
  lastName : String
  jobTitle : String
  company : String
  industry : String
  goals : List String
  skills : List String
  bio : Option String := none
deriving Repr, DecidableEq

/-- Structure `AIMatchResult` from `aiMatchingService.ts` (lines 18–26). -/
structure AIMatchResult where
  userId : String
  compatibilityScore : Int
  reasoning : String
  matchStrengths : List String
  potentialOpportunities : List String
  conversationStarters : List String
  riskFactors : Option (List String) := none
deriving Repr, DecidableEq

/-- Does `needle` occur at the front of `haystack`? -/
def charsMatchFront : List Char → List Char → Bool
  | [], _ => true
  | _ :: _, [] => false
  | a :: as, b :: bs => a == b && charsMatchFront as bs

/-- Does `needle` occur contiguously anywhere inside the second list?
(The empty needle occurs in everything, as for JavaScript `includes`.) -/
def charsContain (needle : List Char) : List Char → Bool
  | [] => needle.isEmpty
  | c :: rest => charsMatchFront needle (c :: rest) || charsContain needle rest

/-- Embeds JavaScript `s.toLowerCase()` (character-wise lowering). -/
def jsToLower (s : String) : String :=
  String.mk (s.data.map Char.toLower)

/-- Embeds JavaScript `haystack.includes(needle)` on strings: substring containment
(the empty string is contained in everything). -/
def strIncludes (haystack needle : String) : Bool :=
  charsContain needle.data haystack.data

/-- The substring test of the scorer (lines 438–439):
`goal.toLowerCase().includes(skill.toLowerCase()) ||
 skill.toLowerCase().includes(goal.toLowerCase())`. -/
def goalSkillMatch (goal skill : String) : Bool :=
  strIncludes (jsToLower goal) (jsToLower skill) ||
    strIncludes (jsToLower skill) (jsToLower goal)

/-- Embeds `u.goals.some(g => g.toLowerCase().includes("partnership"))`
(lines 453–454). -/
def hasPartnershipGoal (u : MatchingProfile) : Bool :=
  u.goals.any fun g => strIncludes (jsToLower g) "partnership"

/-- The raw (unclamped) score accumulated by
`calculateBasicCompatibility` (lines 431–457): starting from `0`, add `20`
for every `(goal, skill)` pair of `user1.goals × user2.skills` whose strings
contain one another case-insensitively, then `15` when the industries are
strictly equal, then `25` when both profiles have a goal containing
`"partnership"`. -/
def basicRawScore (user1 user2 : MatchingProfile) : Int :=
  let s1 := user1.goals.foldl (fun acc goal =>
    user2.skills.foldl (fun acc2 skill =>
      if goalSkillMatch goal skill then acc2 + 20 else acc2) acc) 0
  let s2 := if user1.industry = user2.industry then s1 + 15 else s1
  if hasPartnershipGoal user1 && hasPartnershipGoal user2 then s2 + 25 else s2

/-- The `matchStrengths` list built by `calculateBasicCompatibility`:
one template string per matching `(goal, skill)` pair, plus
`"Same industry background"` on equal industries (lines 441, 449). -/
def basicMatchStrengths (user1 user2 : MatchingProfile) : List String :=
  (user1.goals.foldl (fun acc goal =>
    user2.skills.foldl (fun acc2 skill =>
      if goalSkillMatch goal skill then
        acc2 ++ [user2.firstName ++ "\x27s " ++ skill ++
          " expertise aligns with your " ++ goal ++ " goal"]
      else acc2) acc) [])
  ++ (if user1.industry = user2.industry then ["Same industry background"] else [])

/-- Embeds JavaScript `arr[0]` interpolated into a template: `"undefined"` when the
array is empty. -/
def jsHead (l : List String) : String :=
  match l with
  | [] => "undefined"
  | x :: _ => x

/-- Function `AIMatchingService.calculateBasicCompatibility` (lines 427–471): the
deterministic fallback scorer.  The final score is `Math.min(100, score)`. -/
def calculateBasicCompatibility (user1 user2 : MatchingProfile) : AIMatchResult :=
  { userId := user2.id
    compatibilityScore := min 100 (basicRawScore user1 user2)
    reasoning := "Basic compatibility assessment based on goals, skills, and industry alignment"
    matchStrengths := basicMatchStrengths user1 user2
    potentialOpportunities :=
      if hasPartnershipGoal user1 && hasPartnershipGoal user2 then
        ["Business partnership opportunities"] else []
    conversationStarters :=
      [ "What\x27s driving your interest in " ++ jsHead user2.goals ++ "?"
      , "How has your experience at " ++ user2.company ++ " shaped your perspective?"
      , "What opportunities are you seeing in " ++ user2.industry ++ "?" ] }

/-- The structured object returned by the external reasoning service
(`blink.ai.generateObject` schema, lines 52–86): everything of
`AIMatchResult` except `userId`. -/
structure AIGenObject where
  compatibilityScore : Int
  reasoning : String
  matchStrengths : List String
  potentialOpportunities : List String
  conversationStarters : List String
  riskFactors : Option (List String) := none
deriving Repr, DecidableEq

/-- Function `AIMatchingService.calculateAdvancedCompatibility` (lines 38–98), with
the external AI call made explicit as an `Except` input: on success the
service result is returned with `userId := user2.id`; on any failure
(`catch`) the deterministic fallback `calculateBasicCompatibility` is
returned.  The function is total: no exception propagates to the caller. -/
def calculateAdvancedCompatibility (user1 user2 : MatchingProfile)
    (aiOutcome : Except String AIGenObject) : AIMatchResult :=
  match aiOutcome with
  | .ok o =>
      { userId := user2.id
        compatibilityScore := o.compatibilityScore
        reasoning := o.reasoning
        matchStrengths := o.matchStrengths
        potentialOpportunities := o.potentialOpportunities
        conversationStarters := o.conversationStarters
        riskFactors := o.riskFactors }
  | .error _ => calculateBasicCompatibility user1 user2

/-- The number of `(goal, skill)` pairs of `user1.goals × user2.skills`
matching case-insensitively as substrings — the additive formulation of the
spec (§4.2). -/
def countGoalSkillPairs (user1 user2 : MatchingProfile) : Nat :=
  (user1.goals.map fun g => (user2.skills.filter fun s => goalSkillMatch g s).length).sum

/-- The fallback score as the spec states it (§4.2): additive
`+20` per matching `(goal, skill)` pair, `+15` for identical industry,
`+25` when both profiles list a goal containing `"partnership"`, clamped. -/
def specFallbackScore (user1 user2 : MatchingProfile) : Int :=
  min 100 (20 * (countGoalSkillPairs user1 user2 : Int)
    + (if user1.industry = user2.industry then 15 else 0)
    + (if hasPartnershipGoal user1 && hasPartnershipGoal user2 then 25 else 0))

/-! ## The room engine (speed-networking room component)

Shallow embedding of the matchmaking/session logic of the room component:
`findMatch`, `handleSkip`, `handleTimeUp`, the countdown effect,
`handleExtendTime`, `handleConnect`, `cleanup` and `leaveRoom`.
Each React state setter becomes a field update of `RoomState`; the
asynchronous AI call (and the `Math.random()` draw of the inline fallback)
becomes an explicit `ScoringOutcome` oracle. -/

/-- The outcome, for one candidate, of the scoring step inside `findMatch`
(lines 217–265): either the `calculateAdvancedCompatibility` promise
resolves with a result carrying some score, or it rejects and the inline
fallback runs with some random draw.  `rand` models
`Math.round` applied after adding `Math.random() * 20`, i.e. an integer
between 0 and 20. -/
inductive ScoringOutcome where
  | aiSuccess (score : Int)
  | aiFailure (rand : Int)
deriving Repr, DecidableEq

/-- The inline fallback scoring of `findMatch` (lines 242–264): `+20` per
case-insensitive substring `(goal, skill)` pair of
`currentUser.goals × participant.skills`, `+10` when the industries are
equal, plus the random term, then `Math.min(100, Math.round(score))`. -/
def inlineFallbackScore (currentUser participant : MatchingProfile) (rand : Int) : Int :=
  let s1 := currentUser.goals.foldl (fun acc goal =>
    participant.skills.foldl (fun acc2 skill =>
      if goalSkillMatch goal skill then acc2 + 20 else acc2) acc) 0
  let s2 := if participant.industry = currentUser.industry then s1 + 10 else s1
  min 100 (s2 + rand)

/-- The compatibility score `findMatch` attaches to one candidate, as a
function of the scoring outcome for that candidate. -/
def candidateScore (currentUser participant : MatchingProfile)
    (outcome : ScoringOutcome) : Int :=
  match outcome with
  | .aiSuccess s => s
  | .aiFailure r => inlineFallbackScore currentUser participant r

/-- Embeds JavaScript `arr[0] || d`: the default also replaces a falsy (empty)
first element. -/
def jsHeadOr (l : List String) (d : String) : String :=
  match l with
  | [] => d
  | x :: _ => if x = "" then d else x

/-- Embeds JavaScript slice-join-or-default on the first two skills. -/
def jsJoinTwoOr (l : List String) (d : String) : String :=
  let j := String.intercalate ", " (l.take 2)
  if j = "" then d else j

/-- One scored candidate as built inside `findMatch`
(`{ ...participant, compatibilityScore, primaryGoal, canHelpWith }`,
lines 229–237 and 259–264). -/
structure ScoredCandidate where
  user : MatchingProfile
  compatibilityScore : Int
  primaryGoal : String
  canHelpWith : String
deriving Repr, DecidableEq

/-- Build the scored candidate for one participant (lines 229–237, 259–264). -/
def scoreCandidate (currentUser participant : MatchingProfile)
    (outcome : ScoringOutcome) : ScoredCandidate :=
  { user := participant
    compatibilityScore := candidateScore currentUser participant outcome
    primaryGoal := jsHeadOr participant.goals "Networking"
    canHelpWith := jsJoinTwoOr participant.skills "Various skills" }

/-- Embeds `scoredMatches.sort((a, b) => b.compatibilityScore - a.compatibilityScore)[0]`
(line 270).  JavaScript `Array.prototype.sort` is stable, so the head of the
descending sort is the first element attaining the maximal score; the fold
replaces the current best only on a strictly greater score, which selects
exactly that element. -/
def selectBest (l : List ScoredCandidate) : Option ScoredCandidate :=
  match l with
  | [] => none
  | c :: cs => some (cs.foldl
      (fun best x => if best.compatibilityScore < x.compatibilityScore then x else best) c)

/-- The selection rule as the spec words it (§4.3 step 4): the candidate with
the strictly highest score, ties broken by the earliest candidate. -/
def specSelectHighestEarliest : List ScoredCandidate → Option ScoredCandidate
  | [] => none
  | c :: cs =>
    match specSelectHighestEarliest cs with
    | none => some c
    | some b => some (if c.compatibilityScore < b.compatibilityScore then b else c)

/-- The pure selection performed by one run of `findMatch` (lines 169–304):
filter out the requester, score every remaining candidate (through the
outcome oracle), and pick the best.  Note no other participant is ever
excluded — the component keeps no match history. -/
def findMatchSelect (currentUser : MatchingProfile)
    (participants : List MatchingProfile)
    (oracle : MatchingProfile → ScoringOutcome) : Option ScoredCandidate :=
  let potentialMatches := participants.filter fun p => p.id ≠ currentUser.id
  selectBest (potentialMatches.map fun p => scoreCandidate currentUser p (oracle p))

/-- Values of `matchStatus` in the room component (line 60). -/
inductive MatchStatus where
  | waiting
  | matched
  | extending
  | ending
deriving Repr, DecidableEq

/-- One row of the `matches` table as created by `findMatch`
(lines 282–293) and updated by `handleConnect` (lines 445–450). -/
structure MatchRecord where
  eventId : String
  user1Id : String
  user2Id : String
  compatibilityScore : Int
  status : String
  connectionRequested : Bool
  connectionApproved : Bool
deriving Repr, DecidableEq

/-- The peer connection ref content (`createPeerConnection`, lines 73–124):
the target user and the deterministic initiator flag. -/
structure PeerConn where
  targetUserId : String
  isInitiator : Bool
deriving Repr, DecidableEq

/-- The mutable state of the room component: the React `useState` fields the
matching/session logic touches, the refs, the created `matches` rows and the
current route. -/
structure RoomState where
  currentUser : Option MatchingProfile
  currentMatch : Option ScoredCandidate
  matchStatus : MatchStatus
  timeRemaining : Int
  connectionRequested : Bool
  extensionRequested : Bool
  participants : List MatchingProfile
  matchRecords : List MatchRecord
  localMediaActive : Bool
  peerConnection : Option PeerConn
  route : String
deriving Repr, DecidableEq

/-- One successful pass of `findMatch` over `RoomState` (lines 169–304): set
status `waiting`; if no potential match exists return (state keeps `waiting`
and the previous `currentMatch`); otherwise select the best-scored candidate,
set it as `currentMatch`, set status `matched`, reset the countdown to 300,
create the peer connection (only when a local stream exists, line 74) with
the lexicographically smaller id as initiator (line 278), and append an
`active` match record (lines 282–293). -/
def findMatchStep (oracle : MatchingProfile → ScoringOutcome) (eventId : String)
    (s : RoomState) : RoomState :=
  match s.currentUser with
  | none => s
  | some u =>
    match findMatchSelect u s.participants oracle with
    | none => { s with matchStatus := .waiting }
    | some best =>
      { s with
        matchStatus := .matched
        currentMatch := some best
        timeRemaining := 300
        peerConnection :=
          if s.localMediaActive then
            some { targetUserId := best.user.id, isInitiator := decide (u.id < best.user.id) }
          else s.peerConnection
        matchRecords := s.matchRecords ++
          [ { eventId := eventId
              user1Id := u.id
              user2Id := best.user.id
              compatibilityScore := best.compatibilityScore
              status := "active"
              connectionRequested := false
              connectionApproved := false } ] }

/-- Function `handleSkip` (lines 306–316), without the deferred `findMatch` call:
status `waiting`, clear the current match and both request flags. -/
def handleSkip (s : RoomState) : RoomState :=
  { s with
    matchStatus := .waiting
    currentMatch := none
    connectionRequested := false
    extensionRequested := false }

/-- One tick of the countdown effect (lines 372–386): the interval exists
only while `matchStatus === 'matched' && timeRemaining > 0`; a tick maps
`prev` to `prev - 1`, except that at `prev <= 1` it calls `handleTimeUp`
(which sets status `ending`, lines 318–328) and stores `0`. -/
def tick (s : RoomState) : RoomState :=
  if s.matchStatus = .matched ∧ 0 < s.timeRemaining then
    if s.timeRemaining ≤ 1 then
      { s with timeRemaining := 0, matchStatus := .ending }
    else
      { s with timeRemaining := s.timeRemaining - 1 }
  else s

/-- The synchronous part of `handleExtendTime` (lines 396–399): return
unchanged unless both a current match and a current user exist; otherwise
mark the extension as requested. -/
def requestExtension (s : RoomState) : RoomState :=
  if s.currentMatch = none ∨ s.currentUser = none then s
  else { s with extensionRequested := true }

/-- The deferred grant of `handleExtendTime` (lines 403–412, the
`setTimeout` body): add 180 seconds, clear the pending flag, set status
back to `matched`. -/
def grantExtension (s : RoomState) : RoomState :=
  { s with
    timeRemaining := s.timeRemaining + 180
    extensionRequested := false
    matchStatus := .matched }

/-- Whether the `Extend Time` button is rendered at all: the actions card
requires `matchStatus === 'matched' && currentMatch` (line 682). -/
def extendControlShown (s : RoomState) : Bool :=
  s.matchStatus = .matched && s.currentMatch ≠ none

/-- The `disabled` condition of the `Extend Time` button (line 701):
`extensionRequested || timeRemaining < 60`. -/
def extendControlDisabled (s : RoomState) : Bool :=
  s.extensionRequested || s.timeRemaining < 60

/-- The extension control can actually be used: rendered and not disabled. -/
def extendControlUsable (s : RoomState) : Bool :=
  extendControlShown s && !extendControlDisabled s

/-- Function `cleanup` (lines 63–71): stop the local media tracks and destroy the
peer connection.  It touches nothing else. -/
def cleanup (s : RoomState) : RoomState :=
  { s with localMediaActive := false, peerConnection := none }

/-- Function `leaveRoom` (lines 489–492): `cleanup()` then `navigate` to the dashboard. -/
def leaveRoom (s : RoomState) : RoomState :=
  { cleanup s with route := "/dashboard" }

/-! ## Concrete inputs for witnesses and counterexamples -/

/-- A profile whose goal string `"ai"` occurs inside the other profile's
skill string. -/
def profGoalAI : MatchingProfile :=
  { id := "a", firstName := "Ada", lastName := "L", jobTitle := "CEO",
    company := "Acme", industry := "tech", goals := ["ai"], skills := [] }

/-- Counterpart of `profGoalAI`: the matching string sits in `skills`, and
the profile has no goals of its own. -/
def profSkillAI : MatchingProfile :=
  { id := "b", firstName := "Bo", lastName := "M", jobTitle := "CTO",
    company := "Beta", industry := "fin", goals := [], skills := ["ai"] }

/-- Participant A of the spec scenario in §8: `goals = ["fundraising"]`. -/
def profFundraising : MatchingProfile :=
  { id := "a9", firstName := "Ava", lastName := "N", jobTitle := "Founder",
    company := "FundCo", industry := "Finance", goals := ["fundraising"], skills := [] }

/-- Participant B of the spec scenario in §8:
`skills = ["investor relations"]`, same industry as `profFundraising`. -/
def profInvestorRelations : MatchingProfile :=
  { id := "b9", firstName := "Ben", lastName := "O", jobTitle := "Partner",
    company := "IRCo", industry := "Finance", goals := [], skills := ["investor relations"] }

/-- Profile with goal `"x"` and skill `"y"` (symmetric-contribution witness). -/
def profSwapX : MatchingProfile :=
  { id := "x", firstName := "Xia", lastName := "P", jobTitle := "VP",
    company := "XCo", industry := "retail", goals := ["x"], skills := ["y"] }

/-- Profile with goal `"y"` and skill `"x"` (symmetric-contribution witness). -/
def profSwapY : MatchingProfile :=
  { id := "y", firstName := "Yan", lastName := "Q", jobTitle := "VP",
    company := "YCo", industry := "retail", goals := ["y"], skills := ["x"] }

/-- Requester for the room scenarios. -/
def userA : MatchingProfile :=
  { id := "a2", firstName := "Amy", lastName := "R", jobTitle := "CEO",
    company := "ACo", industry := "tech", goals := [], skills := [] }

/-- Candidate B for the room scenarios. -/
def partB : MatchingProfile :=
  { id := "b2", firstName := "Bob", lastName := "S", jobTitle := "CTO",
    company := "BCo", industry := "media", goals := [], skills := [] }

/-- Candidate C for the room scenarios. -/
def partC : MatchingProfile :=
  { id := "c2", firstName := "Cal", lastName := "T", jobTitle := "CFO",
    company := "CCo", industry := "legal", goals := [], skills := [] }

/-- A scoring oracle under which the AI path succeeds for every candidate,
scoring `partB` at 80 and everyone else at 50. -/
def oracleBC : MatchingProfile → ScoringOutcome :=
  fun p => if p.id = "b2" then .aiSuccess 80 else .aiSuccess 50

/-- The room state right after entering: user loaded, pool of three
(including the requester), no match yet. -/
def roomBase : RoomState :=
  { currentUser := some userA
    currentMatch := none
    matchStatus := .waiting
    timeRemaining := 300
    connectionRequested := false
    extensionRequested := false
    participants := [userA, partB, partC]
    matchRecords := []
    localMediaActive := true
    peerConnection := none
    route := "/room" }

/-- The scored candidate `findMatch` builds for `partB` under `oracleBC`. -/
def scoredB : ScoredCandidate := scoreCandidate userA partB (.aiSuccess 80)

/-- Requester for the randomness counterexample (empty goals and skills, its
own industry). -/
def userU : MatchingProfile :=
  { id := "u5", firstName := "Uma", lastName := "V", jobTitle := "COO",
    company := "UCo", industry := "i0", goals := [], skills := [] }

/-- Candidate B for the randomness counterexample. -/
def partB5 : MatchingProfile :=
  { id := "b5", firstName := "Bea", lastName := "W", jobTitle := "CTO",
    company := "B5Co", industry := "i1", goals := [], skills := [] }

/-- Candidate C for the randomness counterexample. -/
def partC5 : MatchingProfile :=
  { id := "c5", firstName := "Cy", lastName := "X", jobTitle := "CDO",
    company := "C5Co", industry := "i2", goals := [], skills := [] }

/-- Pool for the randomness counterexample. -/
def pool5 : List MatchingProfile := [userU, partB5, partC5]

/-- First run: the AI path fails for every candidate and the inline fallback
draws `Math.round` values 10 for `partB5` and 0 for `partC5` (both are
possible values of the 0–20 random term). -/
def oracleRandB : MatchingProfile → ScoringOutcome :=
  fun p => if p.id = "b5" then .aiFailure 10 else .aiFailure 0

/-- Second run: same pool, same requester, the random term draws 0 for
`partB5` and 10 for `partC5`. -/
def oracleRandC : MatchingProfile → ScoringOutcome :=
  fun p => if p.id = "b5" then .aiFailure 0 else .aiFailure 10

/-- A matched state with 2 seconds on the countdown. -/
def sTimer : RoomState :=
  { roomBase with
    matchStatus := .matched
    currentMatch := some scoredB
    timeRemaining := 2 }

/-- A matched state with 300 seconds remaining and no pending extension. -/
def sExtend : RoomState :=
  { roomBase with
    matchStatus := .matched
    currentMatch := some scoredB
    timeRemaining := 300 }

/-- The match record created for the pairing of `userA` and `partB`. -/
def recActive : MatchRecord :=
  { eventId := "ev"
    user1Id := "a2"
    user2Id := "b2"
    compatibilityScore := 80
    status := "active"
    connectionRequested := false
    connectionApproved := false }

/-- An in-call state holding an active session and its `active` match
record. -/
def sLeave : RoomState :=
  { roomBase with
    matchStatus := .matched
    currentMatch := some scoredB
    timeRemaining := 120
    matchRecords := [recActive]
    peerConnection := some { targetUserId := "b2", isInitiator := true } }

theorem foldl_if_add {α : Type} (p : α → Bool) (c : Int) :
    ∀ (l : List α) (a : Int),
      l.foldl (fun acc x => if p x then acc + c else acc) a
        = a + c * ((l.filter p).length : Int) := by
  intro l
  induction l with
  | nil => intro a; simp
  | cons x xs ih =>
    intro a
    simp only [List.foldl_cons, List.filter_cons]
    by_cases h : p x
    · rw [if_pos h, if_pos h, ih]
      simp only [List.length_cons]
      push_cast
      ring
    · rw [if_neg h, if_neg h, ih]

theorem goalSkill_foldl_eq (user2 : MatchingProfile) :
    ∀ (gs : List String) (a : Int),
      gs.foldl (fun acc goal =>
        user2.skills.foldl (fun acc2 skill =>
          if goalSkillMatch goal skill then acc2 + 20 else acc2) acc) a
      = a + 20 * (((gs.map fun g =>
          (user2.skills.filter fun s => goalSkillMatch g s).length).sum : Nat) : Int) := by
  intro gs
  induction gs with
  | nil => intro a; simp
  | cons g rest ih =>
    intro a
    simp only [List.foldl_cons, List.map_cons, List.sum_cons]
    rw [foldl_if_add, ih]
    push_cast
    ring

theorem basicRawScore_eq (u1 u2 : MatchingProfile) :
    basicRawScore u1 u2 = 20 * (countGoalSkillPairs u1 u2 : Int)
      + (if u1.industry = u2.industry then 15 else 0)
      + (if hasPartnershipGoal u1 && hasPartnershipGoal u2 then 25 else 0) := by
  unfold basicRawScore countGoalSkillPairs
  rw [goalSkill_foldl_eq]
  by_cases h1 : u1.industry = u2.industry <;>
    by_cases h2 : hasPartnershipGoal u1 && hasPartnershipGoal u2 <;>
      simp [h1, h2]

theorem basicRawScore_nonneg (u1 u2 : MatchingProfile) :
    0 ≤ basicRawScore u1 u2 := by
  rw [basicRawScore_eq]
  split_ifs <;> omega

/-- Claim C1: for every pair of profiles, the deterministic fallback scorer
computes the score additively — `+20` per case-insensitive substring
`(goal, skill)` pair, `+15` for identical industries, `+25` when both
profiles list a goal containing `"partnership"` — and the result is clamped
to the interval `[0, 100]`. -/
theorem C1_fallback_additive_clamped (u1 u2 : MatchingProfile) :
    (calculateBasicCompatibility u1 u2).compatibilityScore = specFallbackScore u1 u2
    ∧ 0 ≤ (calculateBasicCompatibility u1 u2).compatibilityScore
    ∧ (calculateBasicCompatibility u1 u2).compatibilityScore ≤ 100 := by
  have hs : (calculateBasicCompatibility u1 u2).compatibilityScore
      = min 100 (basicRawScore u1 u2) := rfl
  refine ⟨?_, ?_, ?_⟩
  · rw [hs, specFallbackScore, basicRawScore_eq]
  · rw [hs]
    have := basicRawScore_nonneg u1 u2
    omega
  · rw [hs]
    omega

/-- Claim C3 counterexample: the fallback scorer is not symmetric.  For
`profGoalAI` (goal `"ai"`, no skills) and `profSkillAI` (skill `"ai"`, no
goals, different industry), `score(A,B) = 20` but `score(B,A) = 0`. -/
theorem C3_counterexample :
    (calculateBasicCompatibility profGoalAI profSkillAI).compatibilityScore = 20
    ∧ (calculateBasicCompatibility profSkillAI profGoalAI).compatibilityScore = 0
    ∧ (calculateBasicCompatibility profGoalAI profSkillAI).compatibilityScore
        ≠ (calculateBasicCompatibility profSkillAI profGoalAI).compatibilityScore := by
  decide

/-- Claim C3 amended: the industry and partnership bonuses are symmetric, but
the substring contribution pairs the first profile's goals with the second
profile's skills only; `score(A,B) = score(B,A)` holds exactly under the
additional hypothesis that this goal-skill pair count is the same in both
directions. -/
theorem C3_amended_symmetric_on_equal_goalskill (A B : MatchingProfile)
    (h : countGoalSkillPairs A B = countGoalSkillPairs B A) :
    (calculateBasicCompatibility A B).compatibilityScore
      = (calculateBasicCompatibility B A).compatibilityScore := by
  have hA : (calculateBasicCompatibility A B).compatibilityScore
      = min 100 (basicRawScore A B) := rfl
  have hB : (calculateBasicCompatibility B A).compatibilityScore
      = min 100 (basicRawScore B A) := rfl
  rw [hA, hB, basicRawScore_eq, basicRawScore_eq, h]
  have h1 : (if A.industry = B.industry then (15 : Int) else 0)
      = (if B.industry = A.industry then (15 : Int) else 0) := by
    simp [eq_comm]
  have h2 : (hasPartnershipGoal A && hasPartnershipGoal B)
      = (hasPartnershipGoal B && hasPartnershipGoal A) := Bool.and_comm _ _
  rw [h1, h2]

/-- Witness for `C3_amended_symmetric_on_equal_goalskill` at the concrete
pair `profSwapX`, `profSwapY` (one matching pair in each direction). -/
theorem C3_amended_witness :
    countGoalSkillPairs profSwapX profSwapY = countGoalSkillPairs profSwapY profSwapX
    ∧ (calculateBasicCompatibility profSwapX profSwapY).compatibilityScore
        = (calculateBasicCompatibility profSwapY profSwapX).compatibilityScore :=
  ⟨by decide, C3_amended_symmetric_on_equal_goalskill profSwapX profSwapY (by decide)⟩

/-- Claim C4: whenever the AI-backed path fails — the external call rejects
for any reason — `calculateAdvancedCompatibility` returns exactly the
deterministic fallback result for the same pair.  The embedded function is
total over all `Except` outcomes, so no error propagates to the caller. -/
theorem C4_failure_falls_back (u1 u2 : MatchingProfile) (e : String) :
    calculateAdvancedCompatibility u1 u2 (Except.error e)
      = calculateBasicCompatibility u1 u2 := rfl

/-- Claim C9 counterexample: the spec scenario claims a fallback score of at
least 20 for A with `goals = ["fundraising"]` and B with
`skills = ["investor relations"]`; in fact neither string contains the
other, so with identical industries the score is exactly 15 — below 20. -/
theorem C9_counterexample :
    profFundraising.industry = profInvestorRelations.industry
    ∧ (calculateBasicCompatibility profFundraising profInvestorRelations).compatibilityScore = 15
    ∧ ¬ (20 ≤ (calculateBasicCompatibility profFundraising
          profInvestorRelations).compatibilityScore) := by
  decide

/-- Claim C9 amended: for A with `goals = ["fundraising"]` and B with
`skills = ["investor relations"]`, the substring contribution is 0 (neither
string is a substring of the other), so the fallback score is exactly 15
when the industries are identical and 0 otherwise. -/
theorem C9_amended_no_substring_match (A B : MatchingProfile)
    (hA : A.goals = ["fundraising"]) (hB : B.skills = ["investor relations"]) :
    (calculateBasicCompatibility A B).compatibilityScore
      = (if A.industry = B.industry then 15 else 0) := by
  have hcnt : countGoalSkillPairs A B = 0 := by
    unfold countGoalSkillPairs
    rw [hA, hB]
    decide
  have hpart : hasPartnershipGoal A = false := by
    unfold hasPartnershipGoal
    rw [hA]
    decide
  have hs : (calculateBasicCompatibility A B).compatibilityScore
      = min 100 (basicRawScore A B) := rfl
  rw [hs, basicRawScore_eq, hcnt, hpart]
  simp only [Bool.false_and, Bool.false_eq_true, if_false, Nat.cast_zero, mul_zero,
    zero_add, add_zero]
  split_ifs <;> decide

/-- Witness for `C9_amended_no_substring_match` at the concrete scenario
profiles (identical industry `"Finance"`): the score evaluates to 15. -/
theorem C9_amended_witness :
    (calculateBasicCompatibility profFundraising profInvestorRelations).compatibilityScore
      = 15 := by
  have h := C9_amended_no_substring_match profFundraising profInvestorRelations rfl rfl
  simpa using h

theorem selectBest_foldl_aux (xs : List ScoredCandidate) :
    ∀ c : ScoredCandidate,
      xs.foldl (fun best x =>
          if best.compatibilityScore < x.compatibilityScore then x else best) c
        = (match specSelectHighestEarliest xs with
           | none => c
           | some b => if c.compatibilityScore < b.compatibilityScore then b else c) := by
  induction xs with
  | nil => intro c; rfl
  | cons x xs ih =>
    intro c
    simp only [List.foldl_cons, specSelectHighestEarliest]
    rw [ih]
    cases h : specSelectHighestEarliest xs with
    | none => simp
    | some b =>
      simp only
      by_cases h1 : c.compatibilityScore < x.compatibilityScore
      · by_cases h2 : x.compatibilityScore < b.compatibilityScore
        · have h3 : c.compatibilityScore < b.compatibilityScore := h1.trans h2
          simp [h1, h2, h3]
        · simp [h1, h2]
      · by_cases h2 : x.compatibilityScore < b.compatibilityScore
        · simp [h1, h2]
        · have h3 : ¬ c.compatibilityScore < b.compatibilityScore := by omega
          simp [h1, h2, h3]

theorem selectBest_eq_spec (l : List ScoredCandidate) :
    selectBest l = specSelectHighestEarliest l := by
  cases l with
  | nil => rfl
  | cons c cs =>
    simp only [selectBest]
    rw [selectBest_foldl_aux]
    simp only [specSelectHighestEarliest]
    cases h : specSelectHighestEarliest cs with
    | none => simp
    | some b => simp

/-- Claim C5 amended: for a fixed requester, pool and fixed scoring outcomes,
`findMatch` is a deterministic selection — it picks the candidate with the
strictly highest score, ties broken by the earliest position in the
candidate list (JavaScript stable sort).  Cross-run determinism fails
because the scores themselves come from the AI service or from a random
fallback term (shown by the counterexample). -/
theorem C5_amended_deterministic_given_scores (u : MatchingProfile)
    (participants : List MatchingProfile) (oracle : MatchingProfile → ScoringOutcome) :
    findMatchSelect u participants oracle
      = specSelectHighestEarliest
          ((participants.filter fun p => p.id ≠ u.id).map
            fun p => scoreCandidate u p (oracle p)) := by
  unfold findMatchSelect
  exact selectBest_eq_spec _

/-- Claim C5 counterexample: two runs of `findMatch` on the same requester and
pool can select different partners.  Both oracles make the AI path fail for
every candidate; the inline fallback then adds `Math.random() * 20` — the
two runs differ only in that random draw (10 vs 0, both within the 0–20
range) and select `partB5` in the first run and `partC5` in the second. -/
theorem C5_counterexample :
    (findMatchSelect userU pool5 oracleRandB).map (fun c => c.user.id) = some "b5"
    ∧ (findMatchSelect userU pool5 oracleRandC).map (fun c => c.user.id) = some "c5"
    ∧ (findMatchSelect userU pool5 oracleRandB).map (fun c => c.user.id)
        ≠ (findMatchSelect userU pool5 oracleRandC).map (fun c => c.user.id) := by
  decide

/-- Claim C2 counterexample: the room keeps no `matchHistory`.  With the pool
`[userA, partB, partC]` and fixed AI scores (B: 80, C: 50), `findMatch`
pairs the requester with `partB`; after a skip, the next `findMatch` run
selects `partB` again — not `partC` as the claim requires — even though
`partC` has never been tried. -/
theorem C2_counterexample :
    (findMatchStep oracleBC "ev" roomBase).currentMatch.map (fun c => c.user.id)
        = some "b2"
    ∧ (findMatchStep oracleBC "ev"
          (handleSkip (findMatchStep oracleBC "ev" roomBase))).currentMatch.map
            (fun c => c.user.id) = some "b2"
    ∧ (findMatchStep oracleBC "ev"
          (handleSkip (findMatchStep oracleBC "ev" roomBase))).currentMatch.map
            (fun c => c.user.id) ≠ some partC.id := by
  decide

/-- Claim C2 amended: `findMatch` excludes only the requester from the pool —
there is no match history.  Consequently the selection is independent of the
rest of the room state: after a skip, re-running `findMatch` with the same
pool and the same scoring outcomes selects the same partner again, whether
or not that partner was just tried. -/
theorem C2_amended_no_history_repeat (oracle : MatchingProfile → ScoringOutcome)
    (ev : String) (s : RoomState) (u : MatchingProfile)
    (hu : s.currentUser = some u)
    (hne : s.participants.filter (fun p => p.id ≠ u.id) ≠ []) :
    (findMatchStep oracle ev (handleSkip (findMatchStep oracle ev s))).currentMatch
      = (findMatchStep oracle ev s).currentMatch := by
  have hsel : ∃ b, findMatchSelect u s.participants oracle = some b := by
    show ∃ b, selectBest ((s.participants.filter fun p => p.id ≠ u.id).map
        fun p => scoreCandidate u p (oracle p)) = some b
    cases hfil : s.participants.filter (fun p => p.id ≠ u.id) with
    | nil => exact absurd hfil hne
    | cons x xs =>
      exact ⟨_, rfl⟩
  obtain ⟨b, hb⟩ := hsel
  simp [findMatchStep, handleSkip, hu, hb]

/-- Witness for `C2_amended_no_history_repeat` at the concrete scenario. -/
theorem C2_amended_witness :
    (findMatchStep oracleBC "ev" (handleSkip (findMatchStep oracleBC "ev" roomBase))).currentMatch
      = (findMatchStep oracleBC "ev" roomBase).currentMatch :=
  C2_amended_no_history_repeat oracleBC "ev" roomBase userA rfl (by decide)

theorem tick_fix_of_ending (s : RoomState) (h : s.matchStatus ≠ .matched) :
    tick s = s := by
  unfold tick
  rw [if_neg]
  intro hc
  exact h hc.1

theorem tick_matched_step (s : RoomState) (h : s.matchStatus = .matched)
    (h0 : 0 < s.timeRemaining) :
    tick s = if s.timeRemaining ≤ 1 then
        { s with timeRemaining := 0, matchStatus := .ending }
      else { s with timeRemaining := s.timeRemaining - 1 } := by
  unfold tick
  rw [if_pos ⟨h, h0⟩]

theorem tick_iterate_le (s : RoomState) (d : Nat)
    (h1 : s.matchStatus = .matched) (h2 : s.timeRemaining = (d : Int)) (h3 : 0 < d) :
    ∀ k, k ≤ d →
      (tick^[k] s).matchStatus = (if k = d then MatchStatus.ending else .matched)
      ∧ (tick^[k] s).timeRemaining = (d : Int) - k := by
  intro k
  induction k with
  | zero =>
    intro _
    have hne : (0 : Nat) ≠ d := by omega
    simp [h1, h2, hne]
  | succ k ih =>
    intro hk
    have hk' : k ≤ d := by omega
    have hklt : k ≠ d := by omega
    obtain ⟨hst, htm⟩ := ih hk'
    rw [if_neg hklt] at hst
    have hpos : 0 < (tick^[k] s).timeRemaining := by rw [htm]; omega
    rw [Function.iterate_succ_apply', tick_matched_step _ hst hpos]
    by_cases hend : k + 1 = d
    · rw [if_pos (by rw [htm]; omega)]
      refine ⟨by simp [hend], ?_⟩
      simp
      omega
    · rw [if_neg (by rw [htm]; omega)]
      refine ⟨by simp [hend, hst], ?_⟩
      simp [htm]
      ring

/-- Claim C6: for a session in `matched` state with `d > 0` seconds remaining,
the countdown decreases by exactly 1 on every tick of the timer effect,
never becomes negative, and reaching 0 triggers exactly one transition to
the `ending` state (the `ending` state admits no further ticks, so the
transition happens at step `d` and never again). -/
theorem C6_countdown_exact (s : RoomState) (d : Nat)
    (h1 : s.matchStatus = .matched) (h2 : s.timeRemaining = (d : Int)) (h3 : 0 < d) :
    (∀ k, k < d → (tick^[k] s).matchStatus = .matched
        ∧ (tick^[k] s).timeRemaining = (d : Int) - k)
    ∧ (∀ k, k < d → (tick^[k + 1] s).timeRemaining = (tick^[k] s).timeRemaining - 1)
    ∧ (∀ k, d ≤ k → (tick^[k] s).matchStatus = .ending ∧ (tick^[k] s).timeRemaining = 0)
    ∧ (∀ k, 0 ≤ (tick^[k] s).timeRemaining)
    ∧ (∀ k, ((tick^[k] s).matchStatus ≠ .ending
          ∧ (tick^[k + 1] s).matchStatus = .ending) ↔ k + 1 = d) := by
  have hlt : ∀ k, k < d → (tick^[k] s).matchStatus = .matched
      ∧ (tick^[k] s).timeRemaining = (d : Int) - k := by
    intro k hk
    have h := tick_iterate_le s d h1 h2 h3 k (Nat.le_of_lt hk)
    rwa [if_neg (Nat.ne_of_lt hk)] at h
  have hd : (tick^[d] s).matchStatus = .ending ∧ (tick^[d] s).timeRemaining = 0 := by
    have h := tick_iterate_le s d h1 h2 h3 d le_rfl
    rw [if_pos rfl] at h
    refine ⟨h.1, ?_⟩
    rw [h.2]
    ring
  have hge : ∀ k, d ≤ k → tick^[k] s = tick^[d] s := by
    intro k hk
    obtain ⟨m, rfl⟩ := Nat.exists_eq_add_of_le hk
    induction m with
    | zero => rfl
    | succ m ih =>
      rw [← Nat.add_assoc, Function.iterate_succ_apply', ih (Nat.le_add_right d m)]
      exact tick_fix_of_ending _ (by rw [hd.1]; intro hc; cases hc)
  refine ⟨hlt, ?_, ?_, ?_, ?_⟩
  · intro k hk
    by_cases hk1 : k + 1 < d
    · rw [(hlt (k + 1) hk1).2, (hlt k hk).2]
      push_cast
      ring
    · have hkd : k + 1 = d := by omega
      rw [hkd, hd.2, (hlt k hk).2]
      have : (d : Int) - k = 1 := by omega
      omega
  · intro k hk
    rw [hge k hk]
    exact hd
  · intro k
    by_cases hk : k < d
    · rw [(hlt k hk).2]
      omega
    · rw [hge k (by omega), hd.2]
  · intro k
    constructor
    · rintro ⟨hne, hend⟩
      by_contra hne2
      by_cases hk1 : k + 1 < d
      · rw [(hlt (k + 1) hk1).1] at hend
        cases hend
      · have hdk : d ≤ k := by omega
        rw [hge k hdk, hd.1] at hne
        exact hne rfl
    · intro hkd
      have hklt : k < d := by omega
      refine ⟨?_, ?_⟩
      · rw [(hlt k hklt).1]
        intro hc
        cases hc
      · rw [hkd]
        exact hd.1

/-- Witness for `C6_countdown_exact` at the concrete matched state `sTimer`
(2 seconds remaining). -/
theorem C6_witness :
    (tick^[1] sTimer).matchStatus = .matched
    ∧ (tick^[2] sTimer).matchStatus = .ending
    ∧ (tick^[2] sTimer).timeRemaining = 0
    ∧ 0 ≤ (tick^[5] sTimer).timeRemaining := by
  have h := C6_countdown_exact sTimer 2 rfl rfl (by norm_num)
  exact ⟨(h.1 1 (by norm_num)).1, (h.2.2.1 2 le_rfl).1, (h.2.2.1 2 le_rfl).2,
    h.2.2.2.1 5⟩

/-- Claim C7 counterexample: after one granted extension the pending flag is
cleared, so the extend control is usable again in the same session; a second
request-grant cycle raises the remaining time from 300 to 660 — the second
request is not rejected. -/
theorem C7_counterexample :
    sExtend.timeRemaining = 300
    ∧ extendControlUsable (grantExtension (requestExtension sExtend)) = true
    ∧ (grantExtension (requestExtension (grantExtension
        (requestExtension sExtend)))).timeRemaining = 660 := by
  decide

/-- Claim C7 amended: a granted extension adds exactly the configured 180
seconds to the remaining time, and only a *pending* request blocks the
extend control; after the grant clears the flag, further extensions within
the same session are accepted (shown by the counterexample). -/
theorem C7_amended_adds_180_only_pending_blocks (s : RoomState)
    (hm : s.currentMatch ≠ none) (hu : s.currentUser ≠ none) :
    (grantExtension s).timeRemaining = s.timeRemaining + 180
    ∧ extendControlDisabled (requestExtension s) = true := by
  refine ⟨rfl, ?_⟩
  have hcond : ¬ (s.currentMatch = none ∨ s.currentUser = none) := by
    push_neg
    exact ⟨hm, hu⟩
  unfold requestExtension
  rw [if_neg hcond]
  simp [extendControlDisabled]

/-- Witness for `C7_amended_adds_180_only_pending_blocks` at `sExtend`. -/
theorem C7_witness :
    (grantExtension sExtend).timeRemaining = sExtend.timeRemaining + 180
    ∧ extendControlDisabled (requestExtension sExtend) = true :=
  C7_amended_adds_180_only_pending_blocks sExtend (by decide) (by decide)

/-- Claim C8 counterexample: from an in-call state holding an active session
(`sLeave`, whose only match record has status `"active"`), leaving the room
neither removes the participant from the pool nor writes any terminal
status: the match record list and the participants list are unchanged. -/
theorem C8_counterexample :
    sLeave.currentMatch ≠ none
    ∧ sLeave.matchRecords = [recActive]
    ∧ recActive.status = "active"
    ∧ (leaveRoom sLeave).matchRecords = [recActive]
    ∧ (leaveRoom sLeave).participants = sLeave.participants := by
  decide

/-- Claim C8 amended: leaving the room stops the local media tracks, destroys
the peer connection and navigates to the dashboard; it performs no pool
removal and no match-record write — an active session's record keeps its
`"active"` status, and the current match is not even cleared. -/
theorem C8_amended_leave_only_local_cleanup (s : RoomState) :
    (leaveRoom s).matchRecords = s.matchRecords
    ∧ (leaveRoom s).participants = s.participants
    ∧ (leaveRoom s).currentMatch = s.currentMatch
    ∧ (leaveRoom s).localMediaActive = false
    ∧ (leaveRoom s).peerConnection = none
    ∧ (leaveRoom s).route = "/dashboard" :=
  ⟨rfl, rfl, rfl, rfl, rfl, rfl⟩

/-- Claim C10: the implicit preconditions of the extension control — the
handler returns with the state unchanged when no current match or no
current user exists, and the control can only be used while the status is
`matched` with a current match, no pending extension request, and at least
60 seconds remaining. -/
theorem C10_extension_preconditions :
    (∀ s : RoomState, s.currentMatch = none ∨ s.currentUser = none →
        requestExtension s = s)
    ∧ (∀ s : RoomState, extendControlUsable s = true →
        s.matchStatus = .matched ∧ s.currentMatch ≠ none
        ∧ s.extensionRequested = false ∧ 60 ≤ s.timeRemaining) := by
  constructor
  · intro s h
    unfold requestExtension
    rw [if_pos h]
  · intro s h
    simp only [extendControlUsable, extendControlShown, extendControlDisabled,
      Bool.and_eq_true, Bool.not_eq_true', Bool.or_eq_false_iff,
      decide_eq_true_eq, decide_eq_false_iff_not] at h
    obtain ⟨⟨hst, hm⟩, hreq, htime⟩ := h
    exact ⟨hst, hm, hreq, by omega⟩

/-- Witness for `C10_extension_preconditions`: at `roomBase` (no current
match) the handler leaves the state unchanged. -/
theorem C10_witness : requestExtension roomBase = roomBase :=
  C10_extension_preconditions.1 roomBase (Or.inl rfl)
